import Mathlib

/-!
Verification of the FluxServer tool-call dispatch and validation bridge
of mcp-flux-studio (`src/index.ts`), shallowly embedded in Lean.

JavaScript runtime values reaching the handler are modelled by `JSValue`,
and JavaScript numbers by `JSNum`: rationals plus NaN and the two
infinities.  The IEEE-754 representation is immaterial to the validators,
which only compare against integral bounds, so rationals are an exact
model of every comparison the code performs.  The external child process
is modelled by `ProcOutcome`, the value of the one observation the server
makes of it (spawn error, or exit code plus accumulated streams).
-/

deriving instance DecidableEq for Except

/-- A JavaScript number: NaN, the infinities, or a finite value. -/
inductive JSNum where
  | nan
  | posInf
  | negInf
  | fin (q : ℚ)
  deriving DecidableEq, Repr

/-- JavaScript `isNaN` applied to a number value. -/
def JSNum.isNaNb : JSNum → Bool
  | JSNum.nan => true
  | _ => false

/-- JavaScript `<` on two number values (any comparison with NaN is false). -/
def JSNum.ltb : JSNum → JSNum → Bool
  | JSNum.nan, _ => false
  | _, JSNum.nan => false
  | JSNum.negInf, JSNum.negInf => false
  | JSNum.negInf, _ => true
  | _, JSNum.negInf => false
  | JSNum.posInf, _ => false
  | JSNum.fin _, JSNum.posInf => true
  | JSNum.fin a, JSNum.fin b => decide (a < b)

/-- JavaScript truthiness of a number: `0` and `NaN` are falsy. -/
def JSNum.truthyb : JSNum → Bool
  | JSNum.nan => false
  | JSNum.fin q => decide (q ≠ 0)
  | _ => true

/-- JavaScript number-to-string conversion (`width.toString()` and template
interpolation of the bounds).  Integral values print as the bare integer,
exactly as in JS; non-integral finite values are abstracted by the rational
printer (no claim exercises them); NaN and the infinities print as in JS. -/
def jsNumToString : JSNum → String
  | JSNum.nan => "NaN"
  | JSNum.posInf => "Infinity"
  | JSNum.negInf => "-Infinity"
  | JSNum.fin q => if q.den = 1 then toString q.num else toString q

/-- A JavaScript value as it can appear in a tool call's arguments object. -/
inductive JSValue where
  | undefined
  | null
  | boolean (b : Bool)
  | num (n : JSNum)
  | str (s : String)
  deriving DecidableEq, Repr

/-- JavaScript truthiness, as used by the handler's `if (args.field)` and
`if (width)` guards: `undefined`, `null`, `false`, `0`, `NaN` and the empty
string are falsy, everything else truthy. -/
def JSValue.truthy : JSValue → Bool
  | JSValue.undefined => false
  | JSValue.null => false
  | JSValue.boolean b => b
  | JSValue.num n => n.truthyb
  | JSValue.str s => decide (s ≠ "")

/-- The string a value contributes when pushed into the command vector
(the handler pushes enum-declared fields raw, typed by cast as strings). -/
def JSValue.toArgString : JSValue → String
  | JSValue.undefined => "undefined"
  | JSValue.null => "null"
  | JSValue.boolean true => "true"
  | JSValue.boolean false => "false"
  | JSValue.num n => jsNumToString n
  | JSValue.str s => s

/-- The two MCP error codes the handler can raise. -/
inductive ErrorCode where
  | InvalidParams
  | MethodNotFound
  deriving DecidableEq, Repr

/-- `McpError` from the MCP SDK: a protocol-level error with code and text. -/
structure McpError where
  code : ErrorCode
  message : String
  deriving DecidableEq, Repr

/-- JavaScript `String.prototype.trim`: strip leading and trailing
whitespace.  Modelled over the character list with `Char.isWhitespace`,
which covers the ASCII whitespace JS strips; the extra Unicode space code
points JS also strips are not exercised by this development. -/
def jsTrim (s : String) : String :=
  String.mk
    (((s.data.dropWhile Char.isWhitespace).reverse.dropWhile
        Char.isWhitespace).reverse)

/-- `validateRequiredString` (src/index.ts lines 90-98): throws
`McpError(InvalidParams, ...)` unless the value is a string whose trimmed
form is non-empty; otherwise returns the string unchanged. -/
def validateRequiredString (value : JSValue) (fieldName : String) :
    Except McpError String :=
  match value with
  | JSValue.str s =>
      if jsTrim s = "" then
        Except.error
          { code := ErrorCode.InvalidParams,
            message := fieldName ++ " is required and must be a non-empty string" }
      else Except.ok s
  | _ =>
      Except.error
        { code := ErrorCode.InvalidParams,
          message := fieldName ++ " is required and must be a non-empty string" }

/-- `validateNumber` (src/index.ts lines 103-126): `undefined`/`null` map to
`none`; a non-number or NaN throws `InvalidParams`; a value below a supplied
`min` or above a supplied `max` throws `InvalidParams`; otherwise the value
itself is returned.  The bounds at every call site are integral, modelled as
rationals. -/
def validateNumber (value : JSValue) (fieldName : String)
    (lo hi : Option ℚ) : Except McpError (Option JSNum) :=
  match value with
  | JSValue.undefined => Except.ok none
  | JSValue.null => Except.ok none
  | JSValue.num n =>
      if n.isNaNb then
        Except.error
          { code := ErrorCode.InvalidParams,
            message := fieldName ++ " must be a valid number" }
      else if (match lo with
               | some m => JSNum.ltb n (JSNum.fin m)
               | none => false) then
        Except.error
          { code := ErrorCode.InvalidParams,
            message := fieldName ++ " must be at least " ++
              (match lo with | some m => jsNumToString (JSNum.fin m) | none => "") }
      else if (match hi with
               | some m => JSNum.ltb (JSNum.fin m) n
               | none => false) then
        Except.error
          { code := ErrorCode.InvalidParams,
            message := fieldName ++ " must be at most " ++
              (match hi with | some m => jsNumToString (JSNum.fin m) | none => "") }
      else Except.ok (some n)
  | _ =>
      Except.error
        { code := ErrorCode.InvalidParams,
          message := fieldName ++ " must be a valid number" }

/-- The model identifiers advertised by the catalog's `enum` for `model`. -/
def fluxModels : List String :=
  ["flux.1.1-pro", "flux.1-pro", "flux.1-dev", "flux.1.1-ultra"]

/-- The aspect ratios advertised by the catalog's `enum` for `aspect_ratio`. -/
def aspectRatios : List String := ["1:1", "4:3", "3:4", "16:9", "9:16"]

/-- The mask shapes advertised by the catalog for `mask_shape`. -/
def maskShapes : List String := ["circle", "rectangle"]

/-- The mask positions advertised by the catalog for `position`. -/
def maskPositions : List String := ["center", "ground"]

/-- The control types advertised by the catalog for `type`. -/
def controlTypes : List String := ["canny", "depth", "pose"]

/-- The raw arguments object of a tool call (`request.params.arguments`):
the union of every field any of the four operations reads, each field a raw
JavaScript value, `undefined` when the caller did not supply it. -/
structure RawArgs where
  prompt : JSValue := JSValue.undefined
  model : JSValue := JSValue.undefined
  aspect_ratio : JSValue := JSValue.undefined
  width : JSValue := JSValue.undefined
  height : JSValue := JSValue.undefined
  output : JSValue := JSValue.undefined
  image : JSValue := JSValue.undefined
  strength : JSValue := JSValue.undefined
  name : JSValue := JSValue.undefined
  mask_shape : JSValue := JSValue.undefined
  position : JSValue := JSValue.undefined
  type : JSValue := JSValue.undefined
  steps : JSValue := JSValue.undefined
  guidance : JSValue := JSValue.undefined
  deriving DecidableEq, Repr

/-- `if (args.field) cmdArgs.push(flag, args.field)`: a truthy raw value
contributes its flag and text, a falsy one contributes nothing. -/
def rawFlag (flag : String) (v : JSValue) : List String :=
  if v.truthy then [flag, v.toArgString] else []

/-- `if (x) cmdArgs.push(flag, x.toString())` on a validated optional
number: emitted only when defined and truthy (nonzero). -/
def numFlagTruthy (flag : String) : Option JSNum → List String
  | some n => if n.truthyb then [flag, jsNumToString n] else []
  | none => []

/-- `if (x !== undefined) cmdArgs.push(flag, x.toString())` on a validated
optional number: emitted whenever defined, including at `0`. -/
def numFlagDefined (flag : String) : Option JSNum → List String
  | some n => [flag, jsNumToString n]
  | none => []

/-- The `generate` case of the call handler (src/index.ts lines 292-313):
validate `prompt`, `width`, `height`, then assemble the command vector in
the handler's push order.  `model`, `aspect_ratio` and `output` are pushed
raw behind truthiness guards, with no enum-membership check. -/
def generateCase (args : RawArgs) : Except McpError (List String) :=
  match validateRequiredString args.prompt "prompt" with
  | Except.error e => Except.error e
  | Except.ok prompt =>
    match validateNumber args.width "width" (some 256) (some 2048) with
    | Except.error e => Except.error e
    | Except.ok width =>
      match validateNumber args.height "height" (some 256) (some 2048) with
      | Except.error e => Except.error e
      | Except.ok height =>
          Except.ok (["generate", "--prompt", prompt]
            ++ rawFlag "--model" args.model
            ++ rawFlag "--aspect-ratio" args.aspect_ratio
            ++ numFlagTruthy "--width" width
            ++ numFlagTruthy "--height" height
            ++ rawFlag "--output" args.output)

/-- The `img2img` case (src/index.ts lines 314-340): validate `image`,
`prompt`, `name`, `strength`, `width`, `height`, then assemble the vector;
note `--name` is pushed right after `--prompt`, and `--strength` is guarded
by strict `!== undefined` (so `0` is emitted). -/
def img2imgCase (args : RawArgs) : Except McpError (List String) :=
  match validateRequiredString args.image "image" with
  | Except.error e => Except.error e
  | Except.ok image =>
    match validateRequiredString args.prompt "prompt" with
    | Except.error e => Except.error e
    | Except.ok prompt =>
      match validateRequiredString args.name "name" with
      | Except.error e => Except.error e
      | Except.ok nm =>
        match validateNumber args.strength "strength" (some 0) (some 1) with
        | Except.error e => Except.error e
        | Except.ok strength =>
          match validateNumber args.width "width" (some 256) (some 2048) with
          | Except.error e => Except.error e
          | Except.ok width =>
            match validateNumber args.height "height" (some 256) (some 2048) with
            | Except.error e => Except.error e
            | Except.ok height =>
                Except.ok (["img2img", "--image", image, "--prompt", prompt,
                    "--name", nm]
                  ++ rawFlag "--model" args.model
                  ++ numFlagDefined "--strength" strength
                  ++ numFlagTruthy "--width" width
                  ++ numFlagTruthy "--height" height
                  ++ rawFlag "--output" args.output)

/-- The `inpaint` case (src/index.ts lines 341-358): validate `image` and
`prompt`; `mask_shape`, `position` and `output` are pushed raw behind
truthiness guards, with no enum-membership check. -/
def inpaintCase (args : RawArgs) : Except McpError (List String) :=
  match validateRequiredString args.image "image" with
  | Except.error e => Except.error e
  | Except.ok image =>
    match validateRequiredString args.prompt "prompt" with
    | Except.error e => Except.error e
    | Except.ok prompt =>
        Except.ok (["inpaint", "--image", image, "--prompt", prompt]
          ++ rawFlag "--mask-shape" args.mask_shape
          ++ rawFlag "--position" args.position
          ++ rawFlag "--output" args.output)

/-- The `control` case (src/index.ts lines 359-382): `type` is validated
only as a required non-empty string (the cast `as ControlType` performs no
runtime check); `steps` and `guidance` are bounded numbers, `--guidance`
guarded by strict `!== undefined`. -/
def controlCase (args : RawArgs) : Except McpError (List String) :=
  match validateRequiredString args.type "type" with
  | Except.error e => Except.error e
  | Except.ok ty =>
    match validateRequiredString args.image "image" with
    | Except.error e => Except.error e
    | Except.ok image =>
      match validateRequiredString args.prompt "prompt" with
      | Except.error e => Except.error e
      | Except.ok prompt =>
        match validateNumber args.steps "steps" (some 1) (some 100) with
        | Except.error e => Except.error e
        | Except.ok steps =>
          match validateNumber args.guidance "guidance" (some 0) (some 100) with
          | Except.error e => Except.error e
          | Except.ok guidance =>
              Except.ok (["control", "--type", ty, "--image", image,
                  "--prompt", prompt]
                ++ numFlagTruthy "--steps" steps
                ++ numFlagDefined "--guidance" guidance
                ++ rawFlag "--output" args.output)

/-- The `switch (request.params.name)` dispatch (src/index.ts lines
291-385): route to the operation's case, or throw
`McpError(MethodNotFound, ...)` for any other name.  The result is the
command vector handed to `runPythonCommand`, or the thrown protocol error. -/
def buildCommand (toolName : String) (args : RawArgs) :
    Except McpError (List String) :=
  if toolName = "generate" then generateCase args
  else if toolName = "img2img" then img2imgCase args
  else if toolName = "inpaint" then inpaintCase args
  else if toolName = "control" then controlCase args
  else
    Except.error
      { code := ErrorCode.MethodNotFound, message := "Unknown tool: " ++ toolName }

/-- What the server observes of the child process: either the spawn itself
errored, or the process ran and closed with an exit code after writing the
accumulated stdout and stderr texts.  (Node reports a `null` code for a
signal-killed child; no claim exercises signals, so the code is an `Int`.) -/
inductive ProcOutcome where
  | spawnError (message : String)
  | exited (code : Int) (stdout : String) (stderr : String)
  deriving DecidableEq, Repr

/-- `runPythonCommand` (src/index.ts lines 45-85) as a function of the
argument vector and of the process outcome the world supplies: an empty
vector is rejected with its own error before any spawn; a spawn error
rejects with the `Failed to spawn Python process` text; exit code 0
resolves to the accumulated stdout; any other exit code rejects with the
`Flux command failed` text carrying the code and the accumulated stderr. -/
def runPythonCommand (args : List String) (world : ProcOutcome) :
    Except String String :=
  if args.length = 0 then Except.error "No command arguments provided"
  else
    match world with
    | ProcOutcome.spawnError m =>
        Except.error ("Failed to spawn Python process: " ++ m)
    | ProcOutcome.exited code out err =>
        if code = 0 then Except.ok out
        else
          Except.error ("Flux command failed (exit code " ++ toString code
            ++ "): " ++ err)

/-- Whether `runPythonCommand` reaches its `spawn` call (src/index.ts line
57): only when the empty-vector guard did not already reject. -/
def runPythonCommandSpawns (args : List String) : Bool :=
  decide (args.length ≠ 0)

/-- A tool response as returned to the caller: the texts of the `content`
array, and the `isError` marker (absent on success, modelled as `false`). -/
structure ToolResponse where
  content : List String
  isError : Bool
  deriving DecidableEq, Repr

/-- A success response (src/index.ts lines 310-312): one text item, no
error marker. -/
def successResponse (text : String) : ToolResponse :=
  { content := [text], isError := false }

/-- An error response (src/index.ts lines 395-403): one text item and the
`isError` marker. -/
def errorResponse (text : String) : ToolResponse :=
  { content := [text], isError := true }

/-- The whole call handler (src/index.ts lines 289-405): build the command
(validation included), run it, and map the result.  A thrown `McpError` is
rethrown by the catch block (protocol-level failure); any other rejection
is caught and converted to an error response whose single text is
`Error: ` followed by the rejection's message. -/
def handleCall (toolName : String) (args : RawArgs) (world : ProcOutcome) :
    Except McpError ToolResponse :=
  match buildCommand toolName args with
  | Except.error e => Except.error e
  | Except.ok cmdArgs =>
      match runPythonCommand cmdArgs world with
      | Except.ok output => Except.ok (successResponse output)
      | Except.error msg => Except.ok (errorResponse ("Error: " ++ msg))

/-- Whether a call reaches the child-process spawn: only when validation
and dispatch succeeded and the vector is non-empty. -/
def spawnAttempted (toolName : String) (args : RawArgs) : Bool :=
  match buildCommand toolName args with
  | Except.error _ => false
  | Except.ok cmdArgs => runPythonCommandSpawns cmdArgs

theorem validateRequiredString_error_code (v : JSValue) (f : String)
    (e : McpError) (h : validateRequiredString v f = Except.error e) :
    e.code = ErrorCode.InvalidParams := by
  unfold validateRequiredString at h
  repeat' split at h
  all_goals first
    | exact Except.noConfusion h
    | (injection h with h2; rw [← h2])

theorem validateNumber_error_code (v : JSValue) (f : String) (lo hi : Option ℚ)
    (e : McpError) (h : validateNumber v f lo hi = Except.error e) :
    e.code = ErrorCode.InvalidParams := by
  unfold validateNumber at h
  repeat' split at h
  all_goals first
    | exact Except.noConfusion h
    | (injection h with h2; rw [← h2])

theorem buildCommand_ok_ne_nil (toolName : String) (args : RawArgs)
    (cmd : List String) (h : buildCommand toolName args = Except.ok cmd) :
    cmd ≠ [] := by
  unfold buildCommand generateCase img2imgCase inpaintCase controlCase at h
  repeat' split at h
  all_goals first
    | exact Except.noConfusion h
    | (injection h with h2; subst h2; simp)

theorem generateCase_error_invalid (args : RawArgs) (e : McpError)
    (h : generateCase args = Except.error e) :
    e.code = ErrorCode.InvalidParams := by
  unfold generateCase at h
  repeat' split at h
  all_goals first
    | exact Except.noConfusion h
    | (injection h with h2; subst h2;
       first
         | exact validateRequiredString_error_code _ _ _ (by assumption)
         | exact validateNumber_error_code _ _ _ _ _ (by assumption))

theorem img2imgCase_error_invalid (args : RawArgs) (e : McpError)
    (h : img2imgCase args = Except.error e) :
    e.code = ErrorCode.InvalidParams := by
  unfold img2imgCase at h
  repeat' split at h
  all_goals first
    | exact Except.noConfusion h
    | (injection h with h2; subst h2;
       first
         | exact validateRequiredString_error_code _ _ _ (by assumption)
         | exact validateNumber_error_code _ _ _ _ _ (by assumption))

theorem inpaintCase_error_invalid (args : RawArgs) (e : McpError)
    (h : inpaintCase args = Except.error e) :
    e.code = ErrorCode.InvalidParams := by
  unfold inpaintCase at h
  repeat' split at h
  all_goals first
    | exact Except.noConfusion h
    | (injection h with h2; subst h2;
       first
         | exact validateRequiredString_error_code _ _ _ (by assumption)
         | exact validateNumber_error_code _ _ _ _ _ (by assumption))

theorem controlCase_error_invalid (args : RawArgs) (e : McpError)
    (h : controlCase args = Except.error e) :
    e.code = ErrorCode.InvalidParams := by
  unfold controlCase at h
  repeat' split at h
  all_goals first
    | exact Except.noConfusion h
    | (injection h with h2; subst h2;
       first
         | exact validateRequiredString_error_code _ _ _ (by assumption)
         | exact validateNumber_error_code _ _ _ _ _ (by assumption))

theorem buildCommand_error_invalid (toolName : String) (args : RawArgs)
    (e : McpError)
    (hname : toolName = "generate" ∨ toolName = "img2img" ∨
      toolName = "inpaint" ∨ toolName = "control")
    (h : buildCommand toolName args = Except.error e) :
    e.code = ErrorCode.InvalidParams := by
  rcases hname with h1 | h1 | h1 | h1 <;> subst h1 <;> unfold buildCommand at h
  · rw [if_pos rfl] at h
    exact generateCase_error_invalid args e h
  · rw [if_neg (by decide : ¬("img2img" : String) = "generate"),
        if_pos rfl] at h
    exact img2imgCase_error_invalid args e h
  · rw [if_neg (by decide : ¬("inpaint" : String) = "generate"),
        if_neg (by decide : ¬("inpaint" : String) = "img2img"),
        if_pos rfl] at h
    exact inpaintCase_error_invalid args e h
  · rw [if_neg (by decide : ¬("control" : String) = "generate"),
        if_neg (by decide : ¬("control" : String) = "img2img"),
        if_neg (by decide : ¬("control" : String) = "inpaint"),
        if_pos rfl] at h
    exact controlCase_error_invalid args e h

theorem runPythonCommand_exit0 (cmd : List String) (hne : cmd ≠ [])
    (out err : String) :
    runPythonCommand cmd (ProcOutcome.exited 0 out err) = Except.ok out := by
  unfold runPythonCommand
  rw [if_neg (by simpa using hne)]
  rfl

theorem runPythonCommand_exit_nonzero (cmd : List String) (hne : cmd ≠ [])
    (code : Int) (hcode : code ≠ 0) (out err : String) :
    runPythonCommand cmd (ProcOutcome.exited code out err) =
      Except.error
        ("Flux command failed (exit code " ++ toString code ++ "): " ++ err) := by
  unfold runPythonCommand
  rw [if_neg (by simpa using hne)]
  simp [hcode]

theorem runPythonCommand_spawn_failure (cmd : List String) (hne : cmd ≠ [])
    (m : String) :
    runPythonCommand cmd (ProcOutcome.spawnError m) =
      Except.error ("Failed to spawn Python process: " ++ m) := by
  unfold runPythonCommand
  rw [if_neg (by simpa using hne)]

/-- C1: for every dispatched call that passes validation, an exit code 0
outcome yields the success response carrying the accumulated stdout
verbatim; a nonzero exit code yields an ordinary error response (not a
protocol error) whose text carries the failure category with the exit code
and the captured stderr; a spawn failure yields an error response carrying
its category and reason. -/
theorem c1_outcome_mapping (toolName : String) (args : RawArgs)
    (cmd : List String) (h : buildCommand toolName args = Except.ok cmd) :
    (∀ out err, handleCall toolName args (ProcOutcome.exited 0 out err) =
        Except.ok (successResponse out))
    ∧ (∀ code out err, code ≠ 0 →
        handleCall toolName args (ProcOutcome.exited code out err) =
          Except.ok (errorResponse ("Error: " ++ ("Flux command failed (exit code "
            ++ toString code ++ "): " ++ err))))
    ∧ (∀ reason, handleCall toolName args (ProcOutcome.spawnError reason) =
        Except.ok (errorResponse
          ("Error: " ++ ("Failed to spawn Python process: " ++ reason)))) := by
  have hne : cmd ≠ [] := buildCommand_ok_ne_nil toolName args cmd h
  refine ⟨?_, ?_, ?_⟩
  · intro out err
    simp only [handleCall, h]
    rw [runPythonCommand_exit0 cmd hne]
  · intro code out err hcode
    simp only [handleCall, h]
    rw [runPythonCommand_exit_nonzero cmd hne code hcode]
  · intro reason
    simp only [handleCall, h]
    rw [runPythonCommand_spawn_failure cmd hne]

/-- Witness for C1: generate at prompt x; exit code 0 with stdout hello
returns the success response with that text verbatim; exit code 1 with
stderr boom returns the error response whose text contains both the exit
code 1 and boom. -/
theorem c1_witness :
    (handleCall "generate" { prompt := JSValue.str "x" }
        (ProcOutcome.exited 0 "hello" "") =
      Except.ok (successResponse "hello"))
    ∧ (handleCall "generate" { prompt := JSValue.str "x" }
        (ProcOutcome.exited 1 "" "boom") =
      Except.ok (errorResponse "Error: Flux command failed (exit code 1): boom"))
    ∧ (∃ pre mid : String,
        "Error: Flux command failed (exit code 1): boom" = pre ++ "1" ++ mid)
    ∧ (∃ pre : String,
        "Error: Flux command failed (exit code 1): boom" = pre ++ "boom") := by
  have hb : buildCommand "generate" { prompt := JSValue.str "x" } =
      Except.ok ["generate", "--prompt", "x"] := by decide
  refine ⟨(c1_outcome_mapping _ _ _ hb).1 "hello" "", ?_,
    ⟨"Error: Flux command failed (exit code ", "): boom", by decide⟩,
    ⟨"Error: Flux command failed (exit code 1): ", by decide⟩⟩
  have h2 := (c1_outcome_mapping _ _ _ hb).2.1 1 "" "boom" (by decide)
  exact h2.trans (by decide)

/-- C3: on the four known operations, the first validation failure aborts
the whole call with a protocol-level InvalidParams error, identical under
every process outcome, without reaching the spawn, and is never downgraded
to an ordinary error response. -/
theorem c3_validation_protocol_error (toolName : String) (args : RawArgs)
    (e : McpError)
    (hname : toolName = "generate" ∨ toolName = "img2img" ∨
      toolName = "inpaint" ∨ toolName = "control")
    (h : buildCommand toolName args = Except.error e) :
    e.code = ErrorCode.InvalidParams
    ∧ (∀ world, handleCall toolName args world = Except.error e)
    ∧ spawnAttempted toolName args = false := by
  refine ⟨buildCommand_error_invalid toolName args e hname h, ?_, ?_⟩
  · intro world
    simp only [handleCall, h]
  · simp only [spawnAttempted, h]

/-- Witness for C3: a generate call with a null prompt and a junk width
aborts with the prompt field's InvalidParams error, the same under a
would-be successful process, without reaching the spawn. -/
theorem c3_witness :
    (buildCommand "generate"
        { prompt := JSValue.null, width := JSValue.str "bad" } =
      Except.error (McpError.mk ErrorCode.InvalidParams
        "prompt is required and must be a non-empty string"))
    ∧ (McpError.mk ErrorCode.InvalidParams
        "prompt is required and must be a non-empty string").code =
        ErrorCode.InvalidParams
    ∧ (handleCall "generate"
        { prompt := JSValue.null, width := JSValue.str "bad" }
        (ProcOutcome.exited 0 "ok" "") =
      Except.error (McpError.mk ErrorCode.InvalidParams
        "prompt is required and must be a non-empty string"))
    ∧ spawnAttempted "generate"
        { prompt := JSValue.null, width := JSValue.str "bad" } = false := by
  have hb : buildCommand "generate"
      { prompt := JSValue.null, width := JSValue.str "bad" } =
      Except.error (McpError.mk ErrorCode.InvalidParams
        "prompt is required and must be a non-empty string") := by decide
  have hc := c3_validation_protocol_error "generate"
    { prompt := JSValue.null, width := JSValue.str "bad" } _ (Or.inl rfl) hb
  exact ⟨hb, hc.1, hc.2.1 _, hc.2.2⟩

/-- C4: any operation name outside the closed set of four fails at the
protocol level with the MethodNotFound (UnknownOperation) error, identical
under every process outcome, never producing an error response and never
reaching the spawn. -/
theorem c4_unknown_operation (toolName : String) (args : RawArgs)
    (h1 : toolName ≠ "generate") (h2 : toolName ≠ "img2img")
    (h3 : toolName ≠ "inpaint") (h4 : toolName ≠ "control") :
    buildCommand toolName args =
      Except.error (McpError.mk ErrorCode.MethodNotFound
        ("Unknown tool: " ++ toolName))
    ∧ (∀ world, handleCall toolName args world =
        Except.error (McpError.mk ErrorCode.MethodNotFound
          ("Unknown tool: " ++ toolName)))
    ∧ spawnAttempted toolName args = false := by
  have hb : buildCommand toolName args =
      Except.error (McpError.mk ErrorCode.MethodNotFound
        ("Unknown tool: " ++ toolName)) := by
    unfold buildCommand
    rw [if_neg h1, if_neg h2, if_neg h3, if_neg h4]
  refine ⟨hb, ?_, ?_⟩
  · intro world
    simp only [handleCall, hb]
  · simp only [spawnAttempted, hb]

/-- Witness for C4: the call of the unknown operation bogus with an empty
arguments object fails with the protocol-level unknown-tool error under a
would-be successful process, without reaching the spawn. -/
theorem c4_witness :
    (buildCommand "bogus" {} =
      Except.error (McpError.mk ErrorCode.MethodNotFound "Unknown tool: bogus"))
    ∧ (handleCall "bogus" {} (ProcOutcome.exited 0 "ok" "") =
      Except.error (McpError.mk ErrorCode.MethodNotFound "Unknown tool: bogus"))
    ∧ spawnAttempted "bogus" {} = false := by
  have hc := c4_unknown_operation "bogus" {} (by decide) (by decide)
    (by decide) (by decide)
  refine ⟨hc.1.trans (by decide), (hc.2.1 _).trans (by decide), hc.2.2⟩

/-- C2 counterexample: supplying img2img with every enum-free optional flag
and the present-but-empty output field shows the emitted vector is NOT in
the schema's declared field order (the schema declares name last, after
output, yet the vector carries name third) and does NOT carry a flag for
every present field (output is present with the empty string and omitted),
refuting the claim as stated. -/
theorem c2_counterexample :
    (buildCommand "img2img"
      { image := JSValue.str "i", prompt := JSValue.str "p",
        name := JSValue.str "n", model := JSValue.str "flux.1-pro",
        output := JSValue.str "" } =
      Except.ok ["img2img", "--image", "i", "--prompt", "p", "--name", "n",
        "--model", "flux.1-pro"])
    ∧ ("--output" ∉ ["img2img", "--image", "i", "--prompt", "p", "--name", "n",
        "--model", "flux.1-pro"])
    ∧ (["img2img", "--image", "i", "--prompt", "p", "--name", "n",
        "--model", "flux.1-pro"] ≠
      ["img2img", "--image", "i", "--prompt", "p", "--model", "flux.1-pro",
        "--output", "", "--name", "n"]) := by
  exact ⟨by decide, by decide, by decide⟩

/-- A value within the inclusive bounds passes validateNumber and is
returned as itself. -/
theorem validateNumber_in_range_ok (f : String) (lo hi q : ℚ)
    (h1 : lo ≤ q) (h2 : q ≤ hi) :
    validateNumber (JSValue.num (JSNum.fin q)) f (some lo) (some hi) =
      Except.ok (some (JSNum.fin q)) := by
  have elo : JSNum.ltb (JSNum.fin q) (JSNum.fin lo) = decide (q < lo) := rfl
  have ehi : JSNum.ltb (JSNum.fin hi) (JSNum.fin q) = decide (hi < q) := rfl
  have hlo : JSNum.ltb (JSNum.fin q) (JSNum.fin lo) = false := by
    rw [elo]; exact decide_eq_false (not_lt.mpr h1)
  have hhi : JSNum.ltb (JSNum.fin hi) (JSNum.fin q) = false := by
    rw [ehi]; exact decide_eq_false (not_lt.mpr h2)
  unfold validateNumber
  simp [JSNum.isNaNb, hlo, hhi]

/-- C2 amended: the vector starts with the operation name followed by
flag/value pairs in the handler's fixed emission order (required fields
first, which for img2img places name before model, deviating from the
schema's declared order) for exactly the fields whose values are truthy,
strength and guidance being emitted whenever defined, including 0, so a
present-but-empty optional string is omitted; absent optionals are
omitted and never replaced by defaults; a call with only the required
fields yields 1 + 2 times that many tokens; and generate with prompt x
and width 300 yields exactly the stated vector. -/
theorem c2_amended_vectors (p i n t m o : String) (s w k st g : ℚ)
    (hp : jsTrim p ≠ "") (hi : jsTrim i ≠ "") (hn : jsTrim n ≠ "")
    (ht : jsTrim t ≠ "") (hm : m ≠ "") (ho : o ≠ "")
    (hs1 : 0 ≤ s) (hs2 : s ≤ 1)
    (hw1 : 256 ≤ w) (hw2 : w ≤ 2048)
    (hk1 : 256 ≤ k) (hk2 : k ≤ 2048)
    (hst1 : 1 ≤ st) (hst2 : st ≤ 100)
    (hg1 : 0 ≤ g) (hg2 : g ≤ 100) :
    (buildCommand "generate" { prompt := JSValue.str p } =
      Except.ok ["generate", "--prompt", p])
    ∧ (buildCommand "img2img"
        { image := JSValue.str i, prompt := JSValue.str p,
          name := JSValue.str n } =
      Except.ok ["img2img", "--image", i, "--prompt", p, "--name", n])
    ∧ (buildCommand "inpaint"
        { image := JSValue.str i, prompt := JSValue.str p } =
      Except.ok ["inpaint", "--image", i, "--prompt", p])
    ∧ (buildCommand "control"
        { type := JSValue.str t, image := JSValue.str i,
          prompt := JSValue.str p } =
      Except.ok ["control", "--type", t, "--image", i, "--prompt", p])
    ∧ (buildCommand "img2img"
        { image := JSValue.str i, prompt := JSValue.str p,
          name := JSValue.str n, model := JSValue.str m,
          strength := JSValue.num (JSNum.fin s),
          width := JSValue.num (JSNum.fin w),
          height := JSValue.num (JSNum.fin k),
          output := JSValue.str o } =
      Except.ok ["img2img", "--image", i, "--prompt", p, "--name", n,
        "--model", m, "--strength", jsNumToString (JSNum.fin s),
        "--width", jsNumToString (JSNum.fin w),
        "--height", jsNumToString (JSNum.fin k), "--output", o])
    ∧ (buildCommand "control"
        { type := JSValue.str t, image := JSValue.str i,
          prompt := JSValue.str p, steps := JSValue.num (JSNum.fin st),
          guidance := JSValue.num (JSNum.fin g),
          output := JSValue.str o } =
      Except.ok ["control", "--type", t, "--image", i, "--prompt", p,
        "--steps", jsNumToString (JSNum.fin st),
        "--guidance", jsNumToString (JSNum.fin g), "--output", o])
    ∧ (buildCommand "generate"
        { prompt := JSValue.str p, output := JSValue.str "" } =
      Except.ok ["generate", "--prompt", p])
    ∧ (buildCommand "generate"
        { prompt := JSValue.str "x", width := JSValue.num (JSNum.fin 300) } =
      Except.ok ["generate", "--prompt", "x", "--width", "300"]) := by
  have vs : validateNumber (JSValue.num (JSNum.fin s)) "strength" (some 0)
      (some 1) = Except.ok (some (JSNum.fin s)) :=
    validateNumber_in_range_ok "strength" 0 1 s hs1 hs2
  have vw : validateNumber (JSValue.num (JSNum.fin w)) "width" (some 256)
      (some 2048) = Except.ok (some (JSNum.fin w)) :=
    validateNumber_in_range_ok "width" 256 2048 w hw1 hw2
  have vk : validateNumber (JSValue.num (JSNum.fin k)) "height" (some 256)
      (some 2048) = Except.ok (some (JSNum.fin k)) :=
    validateNumber_in_range_ok "height" 256 2048 k hk1 hk2
  have vst : validateNumber (JSValue.num (JSNum.fin st)) "steps" (some 1)
      (some 100) = Except.ok (some (JSNum.fin st)) :=
    validateNumber_in_range_ok "steps" 1 100 st hst1 hst2
  have vg : validateNumber (JSValue.num (JSNum.fin g)) "guidance" (some 0)
      (some 100) = Except.ok (some (JSNum.fin g)) :=
    validateNumber_in_range_ok "guidance" 0 100 g hg1 hg2
  have hw0 : w ≠ 0 := ne_of_gt (lt_of_lt_of_le (by norm_num) hw1)
  have hk0 : k ≠ 0 := ne_of_gt (lt_of_lt_of_le (by norm_num) hk1)
  have hst0 : st ≠ 0 := ne_of_gt (lt_of_lt_of_le (by norm_num) hst1)
  refine ⟨?_, ?_, ?_, ?_, ?_, ?_, ?_, by decide⟩
  · simp [buildCommand, generateCase, validateRequiredString, validateNumber,
      rawFlag, numFlagTruthy, JSValue.truthy, hp]
  · simp [buildCommand, img2imgCase, validateRequiredString, validateNumber,
      rawFlag, numFlagTruthy, numFlagDefined, JSValue.truthy, hp, hi, hn]
  · simp [buildCommand, inpaintCase, validateRequiredString,
      rawFlag, JSValue.truthy, hp, hi]
  · simp [buildCommand, controlCase, validateRequiredString, validateNumber,
      rawFlag, numFlagTruthy, numFlagDefined, JSValue.truthy, hp, hi, ht]
  · simp [buildCommand, img2imgCase, validateRequiredString, rawFlag,
      numFlagTruthy, numFlagDefined, JSValue.truthy, JSValue.toArgString,
      JSNum.truthyb, hp, hi, hn, hm, ho, vs, vw, vk, hw0, hk0]
  · simp [buildCommand, controlCase, validateRequiredString, rawFlag,
      numFlagTruthy, numFlagDefined, JSValue.truthy, JSValue.toArgString,
      JSNum.truthyb, hp, hi, ht, ho, vst, vg, hst0]
  · simp [buildCommand, generateCase, validateRequiredString, validateNumber,
      rawFlag, numFlagTruthy, JSValue.truthy, hp]

/-- Witness for C2's amended theorem: required-only vectors for the three
non-generate operations, a full img2img call emitting every field in the
handler's order with strength 0 emitted as a value, a full control call
with guidance 0 emitted, and the present-but-empty output omitted. -/
theorem c2_witness :
    (buildCommand "img2img"
      { image := JSValue.str "a", prompt := JSValue.str "b",
        name := JSValue.str "c" } =
      Except.ok ["img2img", "--image", "a", "--prompt", "b", "--name", "c"])
    ∧ (buildCommand "inpaint"
        { image := JSValue.str "a", prompt := JSValue.str "b" } =
      Except.ok ["inpaint", "--image", "a", "--prompt", "b"])
    ∧ (buildCommand "control"
        { type := JSValue.str "d", image := JSValue.str "a",
          prompt := JSValue.str "b" } =
      Except.ok ["control", "--type", "d", "--image", "a", "--prompt", "b"])
    ∧ (buildCommand "img2img"
        { image := JSValue.str "a", prompt := JSValue.str "b",
          name := JSValue.str "c", model := JSValue.str "flux.1-pro",
          strength := JSValue.num (JSNum.fin 0),
          width := JSValue.num (JSNum.fin 300),
          height := JSValue.num (JSNum.fin 2048),
          output := JSValue.str "out.jpg" } =
      Except.ok ["img2img", "--image", "a", "--prompt", "b", "--name", "c",
        "--model", "flux.1-pro", "--strength", "0", "--width", "300",
        "--height", "2048", "--output", "out.jpg"])
    ∧ (buildCommand "control"
        { type := JSValue.str "d", image := JSValue.str "a",
          prompt := JSValue.str "b", steps := JSValue.num (JSNum.fin 50),
          guidance := JSValue.num (JSNum.fin 0),
          output := JSValue.str "out.jpg" } =
      Except.ok ["control", "--type", "d", "--image", "a", "--prompt", "b",
        "--steps", "50", "--guidance", "0", "--output", "out.jpg"])
    ∧ (buildCommand "generate"
        { prompt := JSValue.str "b", output := JSValue.str "" } =
      Except.ok ["generate", "--prompt", "b"]) := by
  have hc := c2_amended_vectors "b" "a" "c" "d" "flux.1-pro" "out.jpg"
    0 300 2048 50 0 (by decide) (by decide) (by decide) (by decide)
    (by decide) (by decide) (by norm_num) (by norm_num) (by norm_num)
    (by norm_num) (by norm_num) (by norm_num) (by norm_num) (by norm_num)
    (by norm_num) (by norm_num)
  exact ⟨hc.2.1, hc.2.2.1, hc.2.2.2.1, hc.2.2.2.2.1.trans (by decide),
    hc.2.2.2.2.2.1.trans (by decide), hc.2.2.2.2.2.2.1⟩

/-- C5 counterexample: a generate call with a model value outside the
advertised enumeration does not fail validation at all; the non-member
value is emitted verbatim into the command vector, refuting the claim that
enum membership is validated. -/
theorem c5_counterexample :
    (buildCommand "generate"
      { prompt := JSValue.str "x", model := JSValue.str "bogus" } =
      Except.ok ["generate", "--prompt", "x", "--model", "bogus"])
    ∧ "bogus" ∉ fluxModels := by
  exact ⟨by decide, by decide⟩

/-- C5 amended: the handler performs no enum-membership validation: any
non-empty supplied value for an enum-declared field (generate's model and
aspect_ratio, inpaint's mask_shape and position) is passed through
verbatim into the command vector regardless of membership, control's type
is validated only as a required non-empty string, and an unset
enum-declared field is treated as absent and omitted. -/
theorem c5_amended_passthrough (m a ms pos t : String) (hm : m ≠ "")
    (ha : a ≠ "") (hms : ms ≠ "") (hpos : pos ≠ "")
    (ht : jsTrim t ≠ "") :
    (buildCommand "generate"
      { prompt := JSValue.str "x", model := JSValue.str m } =
      Except.ok ["generate", "--prompt", "x", "--model", m])
    ∧ (buildCommand "generate"
        { prompt := JSValue.str "x", aspect_ratio := JSValue.str a } =
      Except.ok ["generate", "--prompt", "x", "--aspect-ratio", a])
    ∧ (buildCommand "generate" { prompt := JSValue.str "x" } =
      Except.ok ["generate", "--prompt", "x"])
    ∧ (buildCommand "inpaint"
        { image := JSValue.str "i", prompt := JSValue.str "p",
          mask_shape := JSValue.str ms } =
      Except.ok ["inpaint", "--image", "i", "--prompt", "p",
        "--mask-shape", ms])
    ∧ (buildCommand "inpaint"
        { image := JSValue.str "i", prompt := JSValue.str "p",
          position := JSValue.str pos } =
      Except.ok ["inpaint", "--image", "i", "--prompt", "p",
        "--position", pos])
    ∧ (buildCommand "inpaint"
        { image := JSValue.str "i", prompt := JSValue.str "p" } =
      Except.ok ["inpaint", "--image", "i", "--prompt", "p"])
    ∧ (buildCommand "control"
        { type := JSValue.str t, image := JSValue.str "i",
          prompt := JSValue.str "p" } =
      Except.ok ["control", "--type", t, "--image", "i",
        "--prompt", "p"]) := by
  have hx : jsTrim "x" ≠ "" := by decide
  have hii : jsTrim "i" ≠ "" := by decide
  have hpp : jsTrim "p" ≠ "" := by decide
  refine ⟨?_, ?_, by decide, ?_, ?_, by decide, ?_⟩
  · simp [buildCommand, generateCase, validateRequiredString, validateNumber,
      rawFlag, numFlagTruthy, JSValue.truthy, JSValue.toArgString, hm, hx]
  · simp [buildCommand, generateCase, validateRequiredString, validateNumber,
      rawFlag, numFlagTruthy, JSValue.truthy, JSValue.toArgString, ha, hx]
  · simp [buildCommand, inpaintCase, validateRequiredString, rawFlag,
      JSValue.truthy, JSValue.toArgString, hms, hii, hpp]
  · simp [buildCommand, inpaintCase, validateRequiredString, rawFlag,
      JSValue.truthy, JSValue.toArgString, hpos, hii, hpp]
  · simp [buildCommand, controlCase, validateRequiredString, validateNumber,
      rawFlag, numFlagTruthy, numFlagDefined, JSValue.truthy, ht, hii, hpp]

/-- Witness for C5's amended theorem: non-member values pass through for
every enum-declared field: generate's model and aspect_ratio, inpaint's
mask_shape and position, and control's type; unset enum fields are
omitted. -/
theorem c5_witness :
    (buildCommand "generate"
      { prompt := JSValue.str "x", model := JSValue.str "not-a-model" } =
      Except.ok ["generate", "--prompt", "x", "--model", "not-a-model"])
    ∧ "not-a-model" ∉ fluxModels
    ∧ (buildCommand "generate"
        { prompt := JSValue.str "x", aspect_ratio := JSValue.str "7:5" } =
      Except.ok ["generate", "--prompt", "x", "--aspect-ratio", "7:5"])
    ∧ "7:5" ∉ aspectRatios
    ∧ (buildCommand "inpaint"
        { image := JSValue.str "i", prompt := JSValue.str "p",
          mask_shape := JSValue.str "hexagon" } =
      Except.ok ["inpaint", "--image", "i", "--prompt", "p",
        "--mask-shape", "hexagon"])
    ∧ "hexagon" ∉ maskShapes
    ∧ (buildCommand "inpaint"
        { image := JSValue.str "i", prompt := JSValue.str "p",
          position := JSValue.str "left" } =
      Except.ok ["inpaint", "--image", "i", "--prompt", "p",
        "--position", "left"])
    ∧ "left" ∉ maskPositions
    ∧ (buildCommand "control"
        { type := JSValue.str "bogus-type", image := JSValue.str "i",
          prompt := JSValue.str "p" } =
      Except.ok ["control", "--type", "bogus-type", "--image", "i",
        "--prompt", "p"])
    ∧ "bogus-type" ∉ controlTypes
    ∧ (buildCommand "inpaint"
        { image := JSValue.str "i", prompt := JSValue.str "p" } =
      Except.ok ["inpaint", "--image", "i", "--prompt", "p"]) := by
  have hc := c5_amended_passthrough "not-a-model" "7:5" "hexagon" "left"
    "bogus-type" (by decide) (by decide) (by decide) (by decide) (by decide)
  exact ⟨hc.1, by decide, hc.2.1, by decide, hc.2.2.2.1, by decide,
    hc.2.2.2.2.1, by decide, hc.2.2.2.2.2.2, by decide, hc.2.2.2.2.2.1⟩

/-- The exact rational -0.0001 (the JS double of the spec's example
compares identically against the bound 0). -/
def ratNeg0001 : ℚ := ⟨-1, 10000, by decide, by decide⟩

/-- The exact rational 1.0001 (the JS double of the spec's example
compares identically against the bound 1). -/
def ratOne0001 : ℚ := ⟨10001, 10000, by decide, by decide⟩

/-- C6: validateNumber returns absent for undefined and null, returns the
number itself for every value within the inclusive bounds (0 included,
never mistaken for absence), rejects a value strictly below the lower
bound with the field-named at-least error, and rejects an in-lower-range
value strictly above the upper bound with the at-most error. -/
theorem c6_optional_number_bounds (f : String) (lo hi q : ℚ) :
    (lo ≤ q → q ≤ hi →
      validateNumber (JSValue.num (JSNum.fin q)) f (some lo) (some hi) =
        Except.ok (some (JSNum.fin q)))
    ∧ (q < lo →
      validateNumber (JSValue.num (JSNum.fin q)) f (some lo) (some hi) =
        Except.error (McpError.mk ErrorCode.InvalidParams
          (f ++ " must be at least " ++ jsNumToString (JSNum.fin lo))))
    ∧ (lo ≤ q → hi < q →
      validateNumber (JSValue.num (JSNum.fin q)) f (some lo) (some hi) =
        Except.error (McpError.mk ErrorCode.InvalidParams
          (f ++ " must be at most " ++ jsNumToString (JSNum.fin hi))))
    ∧ validateNumber JSValue.undefined f (some lo) (some hi) = Except.ok none
    ∧ validateNumber JSValue.null f (some lo) (some hi) = Except.ok none := by
  have elo : JSNum.ltb (JSNum.fin q) (JSNum.fin lo) = decide (q < lo) := rfl
  have ehi : JSNum.ltb (JSNum.fin hi) (JSNum.fin q) = decide (hi < q) := rfl
  refine ⟨?_, ?_, ?_, rfl, rfl⟩
  · intro h1 h2
    have hlo : JSNum.ltb (JSNum.fin q) (JSNum.fin lo) = false := by
      rw [elo]; exact decide_eq_false (not_lt.mpr h1)
    have hhi : JSNum.ltb (JSNum.fin hi) (JSNum.fin q) = false := by
      rw [ehi]; exact decide_eq_false (not_lt.mpr h2)
    unfold validateNumber
    simp [JSNum.isNaNb, hlo, hhi]
  · intro h1
    have hlo : JSNum.ltb (JSNum.fin q) (JSNum.fin lo) = true := by
      rw [elo]; exact decide_eq_true h1
    unfold validateNumber
    simp [JSNum.isNaNb, hlo]
  · intro h1 h2
    have hlo : JSNum.ltb (JSNum.fin q) (JSNum.fin lo) = false := by
      rw [elo]; exact decide_eq_false (not_lt.mpr h1)
    have hhi : JSNum.ltb (JSNum.fin hi) (JSNum.fin q) = true := by
      rw [ehi]; exact decide_eq_true h2
    unfold validateNumber
    simp [JSNum.isNaNb, hlo, hhi]

/-- Witness for C6: width bounds 256 and 2048 are inclusive (255 and 2049
fail with the field-named errors), strength bounds 0 and 1 are inclusive
(-0.0001 and 1.0001 fail), 0 is returned as a value and undefined is
absent without error. -/
theorem c6_witness :
    (validateNumber (JSValue.num (JSNum.fin 256)) "width" (some 256)
        (some 2048) = Except.ok (some (JSNum.fin 256)))
    ∧ (validateNumber (JSValue.num (JSNum.fin 2048)) "width" (some 256)
        (some 2048) = Except.ok (some (JSNum.fin 2048)))
    ∧ (validateNumber (JSValue.num (JSNum.fin 255)) "width" (some 256)
        (some 2048) = Except.error (McpError.mk ErrorCode.InvalidParams
          "width must be at least 256"))
    ∧ (validateNumber (JSValue.num (JSNum.fin 2049)) "width" (some 256)
        (some 2048) = Except.error (McpError.mk ErrorCode.InvalidParams
          "width must be at most 2048"))
    ∧ (validateNumber (JSValue.num (JSNum.fin 0)) "strength" (some 0)
        (some 1) = Except.ok (some (JSNum.fin 0)))
    ∧ (validateNumber (JSValue.num (JSNum.fin 1)) "strength" (some 0)
        (some 1) = Except.ok (some (JSNum.fin 1)))
    ∧ (validateNumber (JSValue.num (JSNum.fin ratNeg0001)) "strength"
        (some 0) (some 1) = Except.error (McpError.mk ErrorCode.InvalidParams
          "strength must be at least 0"))
    ∧ (validateNumber (JSValue.num (JSNum.fin ratOne0001)) "strength"
        (some 0) (some 1) = Except.error (McpError.mk ErrorCode.InvalidParams
          "strength must be at most 1"))
    ∧ validateNumber JSValue.undefined "f" (some 0) (some 100) =
        Except.ok none := by
  refine ⟨(c6_optional_number_bounds "width" 256 2048 256).1 (by norm_num)
      (by norm_num),
    (c6_optional_number_bounds "width" 256 2048 2048).1 (by norm_num)
      (by norm_num),
    ((c6_optional_number_bounds "width" 256 2048 255).2.1
      (by norm_num)).trans (by decide),
    ((c6_optional_number_bounds "width" 256 2048 2049).2.2.1 (by norm_num)
      (by norm_num)).trans (by decide),
    (c6_optional_number_bounds "strength" 0 1 0).1 (by norm_num)
      (by norm_num),
    (c6_optional_number_bounds "strength" 0 1 1).1 (by norm_num)
      (by norm_num),
    ((c6_optional_number_bounds "strength" 0 1 ratNeg0001).2.1
      (by decide)).trans (by decide),
    ((c6_optional_number_bounds "strength" 0 1 ratOne0001).2.2.1 (by decide)
      (by decide)).trans (by decide),
    (c6_optional_number_bounds "f" 0 100 0).2.2.2.1⟩

/-- C7: validateRequiredString succeeds, returning the string itself, for
exactly the string values whose trimmed form is non-empty; every other
value (non-strings, null, undefined, whitespace-only strings) fails with
the field-named InvalidParams error. -/
theorem c7_required_string (v : JSValue) (f : String) :
    (∀ s, v = JSValue.str s → jsTrim s ≠ "" →
      validateRequiredString v f = Except.ok s)
    ∧ ((∀ s, v = JSValue.str s → jsTrim s = "") →
      validateRequiredString v f = Except.error (McpError.mk
        ErrorCode.InvalidParams
        (f ++ " is required and must be a non-empty string"))) := by
  constructor
  · intro s hv hs
    subst hv
    simp only [validateRequiredString]
    rw [if_neg hs]
  · intro hall
    cases v with
    | str s =>
        simp only [validateRequiredString]
        rw [if_pos (hall s rfl)]
    | undefined => rfl
    | null => rfl
    | boolean b => rfl
    | num n => rfl

/-- Witness for C7: the whitespace-only string and null both fail with the
InvalidParams error; an ordinary string is returned unchanged. -/
theorem c7_witness :
    (validateRequiredString (JSValue.str "   ") "prompt" =
      Except.error (McpError.mk ErrorCode.InvalidParams
        "prompt is required and must be a non-empty string"))
    ∧ (validateRequiredString JSValue.null "prompt" =
      Except.error (McpError.mk ErrorCode.InvalidParams
        "prompt is required and must be a non-empty string"))
    ∧ validateRequiredString (JSValue.str "ok") "prompt" = Except.ok "ok" := by
  refine ⟨?_, ?_, ?_⟩
  · refine ((c7_required_string (JSValue.str "   ") "prompt").2 ?_).trans
      (by decide)
    intro s hs
    injection hs with h2
    subst h2
    decide
  · refine ((c7_required_string JSValue.null "prompt").2 ?_).trans (by decide)
    intro s hs
    exact JSValue.noConfusion hs
  · exact (c7_required_string (JSValue.str "ok") "prompt").1 "ok" rfl
      (by decide)

/-- C8 counterexample: Infinity is a present value that is not a finite
number, yet with no bounds supplied validateNumber accepts it and returns
it instead of failing, refuting the claim that every non-finite present
value fails even without bounds (the code tests only isNaN, not
finiteness). -/
theorem c8_counterexample :
    validateNumber (JSValue.num JSNum.posInf) "guidance" none none =
      Except.ok (some JSNum.posInf) := by decide

/-- C8 amended: every present value that is not a number at all, and NaN,
fails with the field-named InvalidParams error under any bounds, NaN being
an invalid number rather than absence; the infinities pass the validity
test and are rejected only by a supplied bound they violate. -/
theorem c8_amended_nan_invalid (f : String) (lo hi : Option ℚ) :
    (validateNumber (JSValue.num JSNum.nan) f lo hi =
      Except.error (McpError.mk ErrorCode.InvalidParams
        (f ++ " must be a valid number")))
    ∧ (∀ s, validateNumber (JSValue.str s) f lo hi =
      Except.error (McpError.mk ErrorCode.InvalidParams
        (f ++ " must be a valid number")))
    ∧ (∀ b, validateNumber (JSValue.boolean b) f lo hi =
      Except.error (McpError.mk ErrorCode.InvalidParams
        (f ++ " must be a valid number")))
    ∧ (∀ m, validateNumber (JSValue.num JSNum.posInf) f lo (some m) =
      Except.error (McpError.mk ErrorCode.InvalidParams
        (f ++ " must be at most " ++ jsNumToString (JSNum.fin m))))
    ∧ (∀ m, validateNumber (JSValue.num JSNum.negInf) f (some m) hi =
      Except.error (McpError.mk ErrorCode.InvalidParams
        (f ++ " must be at least " ++ jsNumToString (JSNum.fin m)))) := by
  refine ⟨rfl, fun s => rfl, fun b => rfl, fun m => ?_, fun m => ?_⟩
  · cases lo <;> rfl
  · cases hi <;> rfl

/-- Witness for C8's amended theorem: NaN fails with no bounds supplied,
and Infinity is rejected by an upper bound it violates. -/
theorem c8_witness :
    (validateNumber (JSValue.num JSNum.nan) "guidance" none none =
      Except.error (McpError.mk ErrorCode.InvalidParams
        "guidance must be a valid number"))
    ∧ (validateNumber (JSValue.num JSNum.posInf) "guidance" (some 0)
        (some 100) = Except.error (McpError.mk ErrorCode.InvalidParams
          "guidance must be at most 100")) := by
  refine ⟨((c8_amended_nan_invalid "guidance" none none).1).trans (by decide),
    ((c8_amended_nan_invalid "guidance" (some 0) none).2.2.2.1 100).trans
      (by decide)⟩

/-- The two fixed failure texts of the Process Executor differ: the
empty-vector rejection is not a spawn-failure message, whatever the spawn
failure reason. -/
theorem noArgs_ne_spawn_message (reason : String) :
    "No command arguments provided" ≠
      "Failed to spawn Python process: " ++ reason := by
  intro h
  have hlen := congrArg String.length h
  rw [String.length_append] at hlen
  have e1 : ("No command arguments provided").length = 29 := rfl
  have e2 : ("Failed to spawn Python process: ").length = 32 := rfl
  rw [e1, e2] at hlen
  omega

/-- C9: an empty argument vector is rejected with its own fixed error
before any spawn (the result does not depend on the process outcome, and
the spawn guard is not passed), and that rejection differs from every
spawn-failure rejection. -/
theorem c9_empty_vector (world : ProcOutcome) :
    runPythonCommand [] world = Except.error "No command arguments provided"
    ∧ runPythonCommandSpawns [] = false
    ∧ (∀ reason, runPythonCommand [] world ≠
        Except.error ("Failed to spawn Python process: " ++ reason)) := by
  refine ⟨rfl, rfl, ?_⟩
  intro reason hcontra
  have h1 : runPythonCommand [] world =
      Except.error "No command arguments provided" := rfl
  rw [h1] at hcontra
  injection hcontra with h3
  exact noArgs_ne_spawn_message reason h3

/-- Witness for C9: the empty vector under both a would-be exit and a
would-be spawn error yields the same fixed rejection, which is not the
spawn-failure message. -/
theorem c9_witness :
    (runPythonCommand [] (ProcOutcome.exited 0 "out" "") =
      Except.error "No command arguments provided")
    ∧ (runPythonCommand [] (ProcOutcome.spawnError "m") =
      Except.error "No command arguments provided")
    ∧ runPythonCommand [] (ProcOutcome.spawnError "m") ≠
        Except.error ("Failed to spawn Python process: " ++ "m") := by
  exact ⟨(c9_empty_vector (ProcOutcome.exited 0 "out" "")).1,
    (c9_empty_vector (ProcOutcome.spawnError "m")).1,
    (c9_empty_vector (ProcOutcome.spawnError "m")).2.2 "m"⟩

/-- C10: for every string whose trimmed form is non-empty,
validateRequiredString returns the original string unchanged (trimming is
only the emptiness test), and the generate handler emits it verbatim,
untrimmed, as the value token after its flag. -/
theorem c10_untrimmed_verbatim (s f : String) (h : jsTrim s ≠ "") :
    validateRequiredString (JSValue.str s) f = Except.ok s
    ∧ buildCommand "generate" { prompt := JSValue.str s } =
      Except.ok ["generate", "--prompt", s] := by
  constructor
  · simp only [validateRequiredString]
    rw [if_neg h]
  · simp [buildCommand, generateCase, validateRequiredString, validateNumber,
      rawFlag, numFlagTruthy, JSValue.truthy, h]

/-- Witness for C10: the string with surrounding whitespace trims to a
non-empty string, is returned unchanged by the validator, and appears
verbatim in the command vector. -/
theorem c10_witness :
    jsTrim "  x  " = "x"
    ∧ validateRequiredString (JSValue.str "  x  ") "prompt" =
        Except.ok "  x  "
    ∧ buildCommand "generate" { prompt := JSValue.str "  x  " } =
        Except.ok ["generate", "--prompt", "  x  "] := by
  have hc := c10_untrimmed_verbatim "  x  " "prompt" (by decide)
  exact ⟨by decide, hc.1, hc.2⟩
